import Mathlib

/-!
# Verification of the dirac-cwl-proto metadata plugin registry

Shallow embedding of the metadata plugin system of `dirac_cwl_proto`:
the plugin classes of `src/dirac_cwl_proto/metadata/plugins/core.py`
(translated from the source), and the plugin registry together with the
base-model construction semantics (the files `metadata/registry.py` and
`metadata/core.py` are not part of the provided sources; those parts are
modelled from the specification, as marked on each definition).
-/

/- ## Values and field declarations -/

/-- Semantic type of a declared plugin field. -/
inductive VType where
  | tString
  | tInt
  | tBool
deriving DecidableEq, Repr

/-- A runtime value supplied for (or defaulted into) a plugin field. -/
inductive Value where
  | vStr (s : String)
  | vInt (n : Int)
  | vBool (b : Bool)
deriving DecidableEq, Repr

/-- The semantic type of a value. -/
def Value.vtype : Value → VType
  | .vStr _ => .tString
  | .vInt _ => .tInt
  | .vBool _ => .tBool

/-- Modelled from the spec: a declared field of a metadata model — a name,
a declared semantic type, and a declared default value (spec §3, §4.1:
"an open set of declared fields with defaults, validated on instantiation"). -/
structure FieldDecl where
  fname : String
  ftype : VType
  fdefault : Value
deriving DecidableEq, Repr

/-- Modelled from the spec: the declared identity and field schema of a
metadata model implementation (`BaseMetadataModel` of `metadata/core.py`,
which is not among the provided sources): an optional explicit `name`, the
implementing type's identifier (`className`), an optional description, the
owning-organization tag `vo` (`none` means globally visible), and the
declared fields (spec §3, "Metadata Model Implementation"). -/
structure PluginClass where
  explicitName : Option String
  className : String
  description : Option String
  vo : Option String
  fields : List FieldDecl
deriving DecidableEq, Repr

/-- Modelled from the spec: derive the registered name from the implementing
type's identifier when no explicit name is set (spec §4.1).  The repository's
tests pin the derivation: registering the class `TestPluginMetadata` makes it
visible as `"TestPlugin"` (test_metadata_registry.py lines 55-63), so the
trailing `"Metadata"` suffix of a class name is dropped. -/
def deriveName (className : String) : String :=
  let cs := className.data
  let suf := "Metadata".data
  if suf.length ≤ cs.length ∧ cs.drop (cs.length - suf.length) = suf then
    ⟨cs.take (cs.length - suf.length)⟩
  else
    className

/-- The name under which a plugin class is registered and looked up:
its explicit name when set, otherwise the derived one. -/
def PluginClass.resolvedName (P : PluginClass) : String :=
  P.explicitName.getD (deriveName P.className)

/- ## Registry table -/

/-- Identity key of a registry entry: `(vo_or_GLOBAL, plugin_name)`; the
first component is `none` for the global scope. -/
abbrev RegKey := Option String × String

/-- Look up the entry at a key in the registration table (first match). -/
def findPlugin (tbl : List (RegKey × PluginClass)) (k : RegKey) :
    Option PluginClass :=
  match tbl with
  | [] => none
  | e :: rest => if e.1 = k then some e.2 else findPlugin rest k

/-- Insert an entry at a key, replacing the existing entry when present. -/
def setPlugin (tbl : List (RegKey × PluginClass)) (k : RegKey)
    (P : PluginClass) : List (RegKey × PluginClass) :=
  match tbl with
  | [] => [(k, P)]
  | e :: rest => if e.1 = k then (k, P) :: rest else e :: setPlugin rest k P

/-- Record a plugin's owning-organization tag in the known-organizations
set; the global scope (`none`) adds no tag. -/
def addVo (vos : List String) (vo : Option String) : List String :=
  match vo with
  | none => vos
  | some v => if v ∈ vos then vos else vos ++ [v]

/-- Modelled from the spec: the in-process plugin registry
(`MetadataPluginRegistry` of `metadata/registry.py`, not among the provided
sources): a table from `(vo_or_GLOBAL, name)` to the implementation class,
plus the set of known organization tags (spec §3 "Registry Table", §4.2). -/
structure Registry where
  plugins : List (RegKey × PluginClass)
  vos : List String
deriving DecidableEq, Repr

/-- A registry with no entries. -/
def Registry.empty : Registry := ⟨[], []⟩

/-- Registration failure. -/
inductive RegError where
  | duplicate (key : RegKey)
deriving DecidableEq, Repr

/-- Modelled from the spec: `register_plugin(class, override)` — computes the
identity key `(vo_or_GLOBAL, name)`; if an entry already exists at that key
and `override` is false it fails with a `DuplicateRegistrationError` naming
the conflicting key, otherwise it inserts/replaces the entry and tracks the
owning-organization tag (spec §4.2). -/
def register_plugin (reg : Registry) (P : PluginClass) (override : Bool) :
    Except RegError Registry :=
  let k : RegKey := (P.vo, P.resolvedName)
  if (findPlugin reg.plugins k).isSome && !override then
    .error (.duplicate k)
  else
    .ok ⟨setPlugin reg.plugins k P, addVo reg.vos P.vo⟩

/-- Modelled from the spec: `get_plugin(name, vo)` — returns the class at
`(vo_or_GLOBAL, name)` if present and null otherwise; an explicit `vo` is
honored strictly, with no fallback to the global scope (spec §4.2). -/
def get_plugin (reg : Registry) (name : String) (vo : Option String) :
    Option PluginClass :=
  findPlugin reg.plugins (vo, name)

/-- Modelled from the spec: `list_plugins(vo)` — the names visible at the
given scope, in registration order; `vo = none` is the union across all
scopes (spec §4.2). -/
def list_plugins (reg : Registry) (vo : Option String) : List String :=
  match vo with
  | none => reg.plugins.map (fun e => e.1.2)
  | some v =>
      (reg.plugins.filter (fun e => decide (e.1.1 = some v))).map
        (fun e => e.1.2)

/-- Modelled from the spec: `list_virtual_organizations()` — the distinct
organization tags with at least one registered plugin (spec §4.2). -/
def list_virtual_organizations (reg : Registry) : List String := reg.vos

/- ## Descriptor and instantiation -/

/-- The metadata model descriptor (the `DataManager` request shape used by
the tests): the registered plugin name to resolve, an optional owning
organization tag narrowing the lookup, and the open parameter mapping
(spec §3, "Metadata Model Descriptor"). -/
structure DataManager where
  metadata_class : String
  vo : Option String
  parameters : List (String × Value)
deriving DecidableEq, Repr

/-- Instantiation failure: the plugin is unknown at the requested scope
(`UnknownPluginError`), or a parameter key is unknown or has an invalid
value (`ValidationError`, carrying the offending keys). -/
inductive InstError where
  | unknownPlugin (name : String) (vo : Option String)
  | validation (keys : List String)
deriving DecidableEq, Repr

/-- First declared field with the given name. -/
def fieldDeclFor (fs : List FieldDecl) (k : String) : Option FieldDecl :=
  match fs with
  | [] => none
  | f :: rest => if f.fname = k then some f else fieldDeclFor rest k

/-- First value bound to a key in a parameter mapping. -/
def lookupParam (params : List (String × Value)) (k : String) :
    Option Value :=
  match params with
  | [] => none
  | kv :: rest => if kv.1 = k then some kv.2 else lookupParam rest k

/-- Modelled from the spec: the offending parameter keys — those not among
the declared fields, or whose supplied value does not match the field's
declared semantic type (spec §4.1: "every declared field is validated
against its declared semantic type; unknown keys must be rejected with a
clear error identifying the offending key(s)"). -/
def offendingKeys (fs : List FieldDecl) (params : List (String × Value)) :
    List String :=
  params.filterMap (fun kv =>
    match fieldDeclFor fs kv.1 with
    | none => some kv.1
    | some f => if kv.2.vtype = f.ftype then none else some kv.1)

/-- Decidable form of "every parameter key is a declared field and its value
matches the declared semantic type". -/
def paramsValid (fs : List FieldDecl) (params : List (String × Value)) :
    Bool :=
  params.all (fun kv =>
    match fieldDeclFor fs kv.1 with
    | none => false
    | some f => decide (kv.2.vtype = f.ftype))

/-- A constructed plugin instance: the class it instantiates and the value
of every declared field. -/
structure PluginInstance where
  ofClass : PluginClass
  fieldValues : List (String × Value)
deriving DecidableEq, Repr

/-- Modelled from the spec: validated construction of a model instance from
a field mapping — offending keys are rejected with a `ValidationError`
identifying them, never silently dropped; every declared field takes the
supplied value when mentioned and its declared default otherwise
(spec §4.1). -/
def buildInstance (P : PluginClass) (params : List (String × Value)) :
    Except InstError PluginInstance :=
  let bad := offendingKeys P.fields params
  if bad = [] then
    .ok ⟨P, P.fields.map (fun f =>
      (f.fname, (lookupParam params f.fname).getD f.fdefault))⟩
  else
    .error (.validation bad)

/-- Modelled from the spec: `instantiate_plugin(descriptor)` — resolves
`get_plugin(descriptor.metadata_class, descriptor.vo)`; a resolution miss is
a hard `UnknownPluginError` identifying the requested name and scope; on
success the resolved class is constructed with `descriptor.parameters`
(spec §4.2). -/
def instantiate_plugin (reg : Registry) (d : DataManager) :
    Except InstError PluginInstance :=
  match get_plugin reg d.metadata_class d.vo with
  | none => .error (.unknownPlugin d.metadata_class d.vo)
  | some P => buildInstance P d.parameters

/- ## Discovery -/

/-- Modelled from the spec: the environment of scannable source locations —
a mapping from source-location name to the candidate implementations it
exposes; a location absent from the environment cannot be scanned (missing,
malformed, or failing to import) (spec §4.2, §4.3). -/
abbrev SourceEnv := List (String × List PluginClass)

/-- Enumerate the candidate classes of one source location, when it can be
scanned at all. -/
def scanSource (env : SourceEnv) (loc : String) : Option (List PluginClass) :=
  match env with
  | [] => none
  | e :: rest => if e.1 = loc then some e.2 else scanSource rest loc

/-- Register each candidate with `override = false`, counting successes; a
collision is recorded as a per-plugin failure, not fatal to the scan. -/
def registerAll (reg : Registry) (cands : List PluginClass) :
    Registry × Nat :=
  match cands with
  | [] => (reg, 0)
  | P :: rest =>
      match register_plugin reg P false with
      | .ok reg1 =>
          let r := registerAll reg1 rest
          (r.1, r.2 + 1)
      | .error _ => registerAll reg rest

/-- Modelled from the spec: `discover_plugins(source_locations)` — scans
each location, registering every found candidate via `register_plugin`
without override and returning the count of successfully registered
plugins; a location that cannot be scanned contributes zero and is skipped,
never failing the whole scan (spec §4.2, §4.3). -/
def discover_plugins (env : SourceEnv) (reg : Registry)
    (locs : List String) : Registry × Nat :=
  match locs with
  | [] => (reg, 0)
  | loc :: rest =>
      match scanSource env loc with
      | none => discover_plugins env reg rest
      | some cands =>
          let r := registerAll reg cands
          let r2 := discover_plugins env r.1 rest
          (r2.1, r.2 + r2.2)

/- ## Concrete plugin classes, from `metadata/plugins/core.py` -/

/-- Python truthiness of an optional string: `None` and the empty string
are falsy. -/
def truthy (o : Option String) : Bool :=
  match o with
  | none => false
  | some s => !s.isEmpty

/-- The query parameters of `QueryBasedMetadata`
(`metadata/plugins/core.py` lines 61-74): optional `query_root`, `site`,
`campaign` and `data_type`, all defaulting to `None`. -/
structure QueryBasedMetadata where
  query_root : Option String := none
  site : Option String := none
  campaign : Option String := none
  data_type : Option String := none
deriving DecidableEq, Repr

/-- `QueryBasedMetadata.get_output_query` (`metadata/plugins/core.py` lines
109-118): the output path under `filecatalog/outputs`, narrowed by campaign
and site when they are truthy, else `default`; paths are rendered as
`/`-joined strings. -/
def QueryBasedMetadata.get_output_query (m : QueryBasedMetadata)
    (_output_name : String) : Option String :=
  let base := "filecatalog/outputs"
  if truthy m.campaign && truthy m.site then
    some (base ++ "/" ++ m.campaign.getD "" ++ "/" ++ m.site.getD "")
  else if truthy m.campaign then
    some (base ++ "/" ++ m.campaign.getD "")
  else
    some (base ++ "/default")

/-- Result shape of `get_input_query`: a single path, a list of paths, or
`None` (`Union[Path, List[Path], None]`). -/
inductive InputQueryResult where
  | single (p : String)
  | multiple (ps : List String)
  | null
deriving DecidableEq, Repr

/-- `TaskWithMetadataQueryPlugin.get_input_query`
(`metadata/plugins/core.py` lines 135-171): reads `site` and `campaign`
from the keyword arguments with `""` as the absent default, returns
`[filecatalog/<campaign>/<site>]` when both are non-empty,
`filecatalog/<site>` when only `site` is, and `None` otherwise. -/
def TaskWithMetadataQueryPlugin.get_input_query (_input_name : String)
    (site campaign : String) : InputQueryResult :=
  if !site.isEmpty && !campaign.isEmpty then
    .multiple ["filecatalog/" ++ campaign ++ "/" ++ site]
  else if !site.isEmpty then
    .single ("filecatalog/" ++ site)
  else
    .null

/- ## Lemmas about the registration table -/

theorem findPlugin_setPlugin_self (tbl : List (RegKey × PluginClass))
    (k : RegKey) (P : PluginClass) :
    findPlugin (setPlugin tbl k P) k = some P := by
  induction tbl with
  | nil => simp [setPlugin, findPlugin]
  | cons e rest ih =>
    by_cases h : e.1 = k
    · simp [setPlugin, findPlugin, h]
    · simp [setPlugin, findPlugin, h, ih]

theorem findPlugin_setPlugin_ne (tbl : List (RegKey × PluginClass))
    (k k' : RegKey) (P : PluginClass) (h : k' ≠ k) :
    findPlugin (setPlugin tbl k P) k' = findPlugin tbl k' := by
  induction tbl with
  | nil => simp [setPlugin, findPlugin, Ne.symm h]
  | cons e rest ih =>
    by_cases he : e.1 = k
    · simp [setPlugin, findPlugin, he, Ne.symm h]
    · by_cases he' : e.1 = k' <;>
        simp [setPlugin, findPlugin, he, he', h, ih]

theorem mem_setPlugin_self (tbl : List (RegKey × PluginClass))
    (k : RegKey) (P : PluginClass) :
    (k, P) ∈ setPlugin tbl k P := by
  induction tbl with
  | nil => simp [setPlugin]
  | cons e rest ih =>
    by_cases h : e.1 = k <;> simp [setPlugin, h, ih]

theorem register_ok_eq {reg reg' : Registry} {P : PluginClass} {ov : Bool}
    (h : register_plugin reg P ov = Except.ok reg') :
    reg' = ⟨setPlugin reg.plugins (P.vo, P.resolvedName) P,
            addVo reg.vos P.vo⟩ := by
  unfold register_plugin at h
  by_cases hc :
      (findPlugin reg.plugins (P.vo, P.resolvedName)).isSome && !ov
  · simp [hc] at h
  · simp [hc] at h
    exact h.symm

theorem name_mem_list_plugins {reg : Registry} {vo : Option String}
    {n : String} {P : PluginClass}
    (h : ((vo, n), P) ∈ reg.plugins) : n ∈ list_plugins reg vo := by
  match vo with
  | none =>
    exact List.mem_map.mpr ⟨((none, n), P), h, rfl⟩
  | some v =>
    refine List.mem_map.mpr ⟨((some v, n), P), ?_, rfl⟩
    exact List.mem_filter.mpr ⟨h, by simp⟩

/- ## Lemmas about validated construction -/

theorem fieldDeclFor_fname {fs : List FieldDecl} {k : String}
    {f : FieldDecl} (h : fieldDeclFor fs k = some f) : f.fname = k := by
  induction fs with
  | nil => cases h
  | cons g rest ih =>
    by_cases hg : g.fname = k
    · rw [fieldDeclFor, if_pos hg] at h
      cases h
      exact hg
    · rw [fieldDeclFor, if_neg hg] at h
      exact ih h

theorem offendingKeys_nil_of_valid (fs : List FieldDecl)
    (params : List (String × Value)) (h : paramsValid fs params = true) :
    offendingKeys fs params = [] := by
  induction params with
  | nil => rfl
  | cons kv rest ih =>
    rw [paramsValid, List.all_cons, Bool.and_eq_true] at h
    obtain ⟨h1, h2⟩ := h
    have ih' := ih (by rw [paramsValid]; exact h2)
    cases hf : fieldDeclFor fs kv.1 with
    | none => rw [hf] at h1; cases h1
    | some f =>
      rw [hf] at h1
      have ht : kv.2.vtype = f.ftype := of_decide_eq_true h1
      simp only [offendingKeys, List.filterMap_cons, hf, ht, if_pos rfl]
      exact ih'
  
theorem mem_offendingKeys_of_unknown {fs : List FieldDecl} {k : String}
    {v : Value} {params : List (String × Value)}
    (hmem : (k, v) ∈ params) (hf : fieldDeclFor fs k = none) :
    k ∈ offendingKeys fs params := by
  induction params with
  | nil => cases hmem
  | cons kv rest ih =>
    rcases List.mem_cons.mp hmem with heq | htl
    · simp [offendingKeys, List.filterMap_cons, ← heq, hf]
    · have hmem' := ih htl
      simp only [offendingKeys, List.filterMap_cons]
      cases hf2 : fieldDeclFor fs kv.1 with
      | none => exact List.mem_cons_of_mem _ hmem'
      | some f =>
        by_cases ht : kv.2.vtype = f.ftype
        · simp only [ht, if_pos rfl]
          exact hmem'
        · simp only [if_neg ht]
          exact List.mem_cons_of_mem _ hmem'

theorem lookupParam_map_fields (fs : List FieldDecl)
    (g : FieldDecl → Value) (k : String) :
    lookupParam (fs.map (fun f => (f.fname, g f))) k =
      Option.map g (fieldDeclFor fs k) := by
  induction fs with
  | nil => rfl
  | cons f rest ih =>
    by_cases h : f.fname = k <;> simp [lookupParam, fieldDeclFor, h, ih]

/-- A string that is not empty has a false `isEmpty` flag. -/
theorem isEmpty_false_of_ne {s : String} (h : s ≠ "") :
    s.isEmpty = false := by
  cases hse : s.isEmpty
  · rfl
  · exact absurd ((String.isEmpty_iff s).mp hse) h

/- ## Concrete plugin classes and registries, mirroring the tests -/

/-- The `TestPluginMetadata` class of the tests: global scope, one declared
field `test_param` with default `"default"`. -/
def testPluginMetadataClass : PluginClass :=
  ⟨none, "TestPluginMetadata", some "Test plugin for unit tests", none,
    [⟨"test_param", .tString, .vStr "default"⟩]⟩

/-- The `TestVOPlugin` class of the tests: scope `"test_exp"`, one declared
field `exp_param` with default `42`. -/
def testVOPluginClass : PluginClass :=
  ⟨none, "TestVOPlugin", some "Test VO plugin", some "test_exp",
    [⟨"exp_param", .tInt, .vInt 42⟩]⟩

/-- The registry holding `TestPluginMetadata`, registered under its derived
name `"TestPlugin"` in the global scope. -/
def registryWithTestPlugin : Registry :=
  ⟨[((none, "TestPlugin"), testPluginMetadataClass)], []⟩

/-- The registry holding `TestVOPlugin` under the `"test_exp"` scope. -/
def registryWithVOPlugin : Registry :=
  ⟨[((some "test_exp", "TestVOPlugin"), testVOPluginClass)], ["test_exp"]⟩

/- ## The claims -/

/-- C1: for every plugin class `P` registered via `register_plugin` with its
organization tag, a subsequent `get_plugin (P.resolvedName) P.vo` returns
exactly the registered class, and `list_plugins` at that scope contains the
plugin's name. -/
theorem registered_plugin_is_gettable_and_listed
    (reg reg' : Registry) (P : PluginClass) (ov : Bool)
    (h : register_plugin reg P ov = Except.ok reg') :
    get_plugin reg' P.resolvedName P.vo = some P ∧
    P.resolvedName ∈ list_plugins reg' P.vo := by
  have he := register_ok_eq h
  subst he
  exact ⟨findPlugin_setPlugin_self _ _ _,
    name_mem_list_plugins (mem_setPlugin_self _ _ _)⟩

theorem registered_plugin_is_gettable_and_listed_witness :
    get_plugin registryWithVOPlugin testVOPluginClass.resolvedName
      testVOPluginClass.vo = some testVOPluginClass ∧
    testVOPluginClass.resolvedName ∈
      list_plugins registryWithVOPlugin testVOPluginClass.vo :=
  registered_plugin_is_gettable_and_listed Registry.empty
    registryWithVOPlugin testVOPluginClass false rfl

/-- C2: when the identity key `(vo_or_GLOBAL, name)` of a plugin class is
already occupied, `register_plugin` without override fails with a
`DuplicateRegistrationError` naming the conflicting key. -/
theorem duplicate_registration_errors (reg : Registry) (P Q : PluginClass)
    (h : get_plugin reg P.resolvedName P.vo = some Q) :
    register_plugin reg P false =
      Except.error (.duplicate (P.vo, P.resolvedName)) := by
  have h' : findPlugin reg.plugins (P.vo, P.resolvedName) = some Q := h
  simp [register_plugin, h']

theorem duplicate_registration_errors_witness :
    register_plugin registryWithVOPlugin testVOPluginClass false =
      Except.error (.duplicate (testVOPluginClass.vo,
        testVOPluginClass.resolvedName)) :=
  duplicate_registration_errors registryWithVOPlugin testVOPluginClass
    testVOPluginClass rfl

/-- C3: `instantiate_plugin` on a descriptor whose `metadata_class` does not
resolve to a registered plugin at the descriptor's scope fails with an
`UnknownPluginError` identifying the requested name and scope (it is a hard
error, never a null return). -/
theorem instantiate_unknown_plugin_errors (reg : Registry) (d : DataManager)
    (h : get_plugin reg d.metadata_class d.vo = none) :
    instantiate_plugin reg d =
      Except.error (.unknownPlugin d.metadata_class d.vo) := by
  simp [instantiate_plugin, h]

theorem instantiate_unknown_plugin_errors_witness :
    instantiate_plugin Registry.empty ⟨"NonExistent", none, []⟩ =
      Except.error (.unknownPlugin "NonExistent" none) :=
  instantiate_unknown_plugin_errors Registry.empty
    ⟨"NonExistent", none, []⟩ rfl

/-- C4: instantiating a registered plugin with a parameter mapping whose
every mentioned key is a declared field with a value of its declared type
returns an instance of that class whose mentioned fields equal exactly the
supplied values and whose omitted fields equal the declared defaults. -/
theorem instantiate_with_valid_params (reg : Registry) (d : DataManager)
    (P : PluginClass)
    (hres : get_plugin reg d.metadata_class d.vo = some P)
    (hval : paramsValid P.fields d.parameters = true) :
    ∃ inst, instantiate_plugin reg d = Except.ok inst ∧
      inst.ofClass = P ∧
      ∀ k f, fieldDeclFor P.fields k = some f →
        lookupParam inst.fieldValues k =
          some ((lookupParam d.parameters k).getD f.fdefault) := by
  have hok := offendingKeys_nil_of_valid P.fields d.parameters hval
  refine ⟨⟨P, P.fields.map (fun f =>
    (f.fname, (lookupParam d.parameters f.fname).getD f.fdefault))⟩,
    ?_, rfl, ?_⟩
  · simp [instantiate_plugin, hres, buildInstance, hok]
  · intro k f hf
    have hk := fieldDeclFor_fname hf
    simp only [lookupParam_map_fields, hf, Option.map_some']
    rw [hk]

/-- The descriptor of the test `test_instantiate_plugin`: resolve
`"TestPlugin"` globally and supply `test_param = "custom"`. -/
def customParamDescriptor : DataManager :=
  ⟨"TestPlugin", none, [("test_param", .vStr "custom")]⟩

theorem instantiate_with_valid_params_witness :
    ∃ inst, instantiate_plugin registryWithTestPlugin customParamDescriptor =
        Except.ok inst ∧
      inst.ofClass = testPluginMetadataClass ∧
      ∀ k f, fieldDeclFor testPluginMetadataClass.fields k = some f →
        lookupParam inst.fieldValues k =
          some ((lookupParam customParamDescriptor.parameters k).getD
            f.fdefault) :=
  instantiate_with_valid_params registryWithTestPlugin
    customParamDescriptor testPluginMetadataClass rfl rfl

/-- C5: a parameter mapping containing a key that is not among the declared
fields makes `instantiate_plugin` fail with a `ValidationError` whose
offending keys contain that key; it never returns an instance built from
defaults. -/
theorem instantiate_unknown_key_errors (reg : Registry) (d : DataManager)
    (P : PluginClass) (k : String) (v : Value)
    (hres : get_plugin reg d.metadata_class d.vo = some P)
    (hmem : (k, v) ∈ d.parameters)
    (hunk : fieldDeclFor P.fields k = none) :
    ∃ bad, instantiate_plugin reg d = Except.error (.validation bad) ∧
      k ∈ bad ∧
      ∀ inst, instantiate_plugin reg d ≠ Except.ok inst := by
  have hk := mem_offendingKeys_of_unknown hmem hunk
  have hne : ¬ offendingKeys P.fields d.parameters = [] := by
    intro h0
    rw [h0] at hk
    cases hk
  have heq : instantiate_plugin reg d =
      Except.error (.validation (offendingKeys P.fields d.parameters)) := by
    simp [instantiate_plugin, hres, buildInstance, hne]
  refine ⟨offendingKeys P.fields d.parameters, heq, hk, ?_⟩
  intro inst hcon
  rw [heq] at hcon
  cases hcon

/-- A descriptor with a typo key that `TestPluginMetadata` does not
declare. -/
def typoParamDescriptor : DataManager :=
  ⟨"TestPlugin", none, [("unknown_param", .vStr "x")]⟩

theorem instantiate_unknown_key_errors_witness :
    ∃ bad, instantiate_plugin registryWithTestPlugin typoParamDescriptor =
        Except.error (.validation bad) ∧
      "unknown_param" ∈ bad ∧
      ∀ inst, instantiate_plugin registryWithTestPlugin typoParamDescriptor ≠
        Except.ok inst :=
  instantiate_unknown_key_errors registryWithTestPlugin typoParamDescriptor
    testPluginMetadataClass "unknown_param" (.vStr "x") rfl
    (List.mem_singleton.mpr rfl) rfl

/-- C6: `get_plugin` returns null when no entry exists at the requested
scope; in particular a lookup scoped to an organization with no entry at
`(vo, name)` returns null rather than falling back to the plugin registered
for the same name at a different (e.g. the global) scope. -/
theorem scoped_get_plugin_no_fallback (reg reg' : Registry)
    (P : PluginClass) (ov : Bool) (v : String)
    (hreg : register_plugin reg P ov = Except.ok reg')
    (hvo : P.vo ≠ some v)
    (hmiss : get_plugin reg P.resolvedName (some v) = none) :
    get_plugin reg' P.resolvedName P.vo = some P ∧
    get_plugin reg' P.resolvedName (some v) = none := by
  have he := register_ok_eq hreg
  subst he
  refine ⟨findPlugin_setPlugin_self _ _ _, ?_⟩
  have hne : ((some v : Option String), P.resolvedName) ≠
      (P.vo, P.resolvedName) := by
    intro hh
    exact hvo (congrArg Prod.fst hh).symm
  show findPlugin (setPlugin reg.plugins (P.vo, P.resolvedName) P)
      (some v, P.resolvedName) = none
  rw [findPlugin_setPlugin_ne _ _ _ _ hne]
  exact hmiss

theorem scoped_get_plugin_no_fallback_witness :
    get_plugin registryWithTestPlugin testPluginMetadataClass.resolvedName
      testPluginMetadataClass.vo = some testPluginMetadataClass ∧
    get_plugin registryWithTestPlugin testPluginMetadataClass.resolvedName
      (some "other_vo") = none :=
  scoped_get_plugin_no_fallback Registry.empty registryWithTestPlugin
    testPluginMetadataClass false "other_vo" rfl (by decide) rfl

/-- C7: a plugin class with no explicitly set name is registered and looked
up under the name derived from the implementing type's identifier (its
class name). -/
theorem name_derived_from_class_identifier (reg reg' : Registry)
    (P : PluginClass) (ov : Bool)
    (hname : P.explicitName = none)
    (hreg : register_plugin reg P ov = Except.ok reg') :
    P.resolvedName = deriveName P.className ∧
    get_plugin reg' (deriveName P.className) P.vo = some P := by
  have hr : P.resolvedName = deriveName P.className := by
    simp [PluginClass.resolvedName, hname]
  have he := register_ok_eq hreg
  subst he
  refine ⟨hr, ?_⟩
  rw [← hr]
  exact findPlugin_setPlugin_self _ _ _

theorem name_derived_from_class_identifier_witness :
    testPluginMetadataClass.resolvedName =
      deriveName testPluginMetadataClass.className ∧
    get_plugin registryWithTestPlugin
      (deriveName testPluginMetadataClass.className)
      testPluginMetadataClass.vo = some testPluginMetadataClass :=
  name_derived_from_class_identifier Registry.empty registryWithTestPlugin
    testPluginMetadataClass false rfl rfl

/-- C8: `discover_plugins` on a list holding only a source location that
cannot be scanned returns a count of 0 and leaves the registry — every one
of its existing entries — unchanged, raising no error. -/
theorem discover_unscannable_returns_zero (env : SourceEnv) (reg : Registry)
    (loc : String) (h : scanSource env loc = none) :
    discover_plugins env reg [loc] = (reg, 0) := by
  simp [discover_plugins, h]

theorem discover_unscannable_returns_zero_witness :
    discover_plugins [] registryWithVOPlugin ["nonexistent.source"] =
      (registryWithVOPlugin, 0) :=
  discover_unscannable_returns_zero [] registryWithVOPlugin
    "nonexistent.source" rfl

/-- C9: `QueryBasedMetadata.get_output_query` never returns null: it
returns `filecatalog/outputs/<campaign>/<site>` when both campaign and site
are set (truthy), `filecatalog/outputs/<campaign>` when only campaign is
set, and `filecatalog/outputs/default` otherwise. -/
theorem output_query_never_null (m : QueryBasedMetadata)
    (outName : String) :
    m.get_output_query outName ≠ none ∧
    (truthy m.campaign = true → truthy m.site = true →
      m.get_output_query outName =
        some ("filecatalog/outputs/" ++ m.campaign.getD "" ++ "/" ++
          m.site.getD "")) ∧
    (truthy m.campaign = true → truthy m.site = false →
      m.get_output_query outName =
        some ("filecatalog/outputs/" ++ m.campaign.getD "")) ∧
    (truthy m.campaign = false →
      m.get_output_query outName = some "filecatalog/outputs/default") := by
  unfold QueryBasedMetadata.get_output_query
  refine ⟨?_, ?_, ?_, ?_⟩
  · split_ifs <;> simp
  · intro hc hs
    simp [hc, hs]
  · intro hc hs
    simp [hc, hs]
  · intro hc
    simp [hc]

theorem output_query_never_null_witness :
    QueryBasedMetadata.get_output_query
      ⟨none, some "siteA", some "camp1", none⟩ "out" =
      some "filecatalog/outputs/camp1/siteA" :=
  (output_query_never_null ⟨none, some "siteA", some "camp1", none⟩
    "out").2.1 rfl rfl

/-- C10: `TaskWithMetadataQueryPlugin.get_input_query` returns the list
`[filecatalog/<campaign>/<site>]` when both keyword arguments are
non-empty, the single path `filecatalog/<site>` when only `site` is
non-empty, and null in every other case — in particular when `campaign`
alone is provided. -/
theorem input_query_site_campaign_cases (inputName site campaign : String) :
    (site ≠ "" → campaign ≠ "" →
      TaskWithMetadataQueryPlugin.get_input_query inputName site campaign =
        .multiple ["filecatalog/" ++ campaign ++ "/" ++ site]) ∧
    (site ≠ "" → campaign = "" →
      TaskWithMetadataQueryPlugin.get_input_query inputName site campaign =
        .single ("filecatalog/" ++ site)) ∧
    (site = "" →
      TaskWithMetadataQueryPlugin.get_input_query inputName site campaign =
        .null) ∧
    (site = "" → campaign ≠ "" →
      TaskWithMetadataQueryPlugin.get_input_query inputName site campaign =
        .null) := by
  unfold TaskWithMetadataQueryPlugin.get_input_query
  refine ⟨?_, ?_, ?_, ?_⟩
  · intro hs hc
    simp [isEmpty_false_of_ne hs, isEmpty_false_of_ne hc]
  · intro hs hc
    subst hc
    simp [isEmpty_false_of_ne hs, show "".isEmpty = true from rfl]
  · intro hs
    subst hs
    simp [show "".isEmpty = true from rfl]
  · intro hs _hc
    subst hs
    simp [show "".isEmpty = true from rfl]

theorem input_query_site_campaign_cases_witness :
    TaskWithMetadataQueryPlugin.get_input_query "inp" "" "campA" =
      InputQueryResult.null :=
  (input_query_site_campaign_cases "inp" "" "campA").2.2.2 rfl
    (by decide)
